import Mathlib

/-!
# Verification of the gorestic-homelab Run Orchestrator

A shallow embedding of `internal/services/runner/service.go` (the `Run`
workflow and its helpers `runWOL`, `runPostgresDump`, `runSSHShutdown`,
`sendNotificationWithStats`) together with the restic `Init` operation from
the restic service, over the data model of `internal/models`.

Go errors are modelled as their message strings.  Each external collaborator
call (the mocked services `restic`, `wol`, `postgres`, `ssh`, `telegram`,
plus the `os.ReadFile` of the SSH key) is modelled by a fixed response in a
`Collab` record: every collaborator is invoked at most once per run, so one
response per collaborator suffices.  `Except Err α` models the Go pair
`(result, transport error)`; the result types carry their own result-level
`error` field exactly as in `internal/models`.

The embedding records, besides the returned error and the `failedStep`
variable, an execution trace of the collaborator invocations and cleanup
actions (`Step`), the statistics captured for the notification, the
notification message built (if telegram is configured), the shutdown
sub-configuration as it stands after the run (the Go code mutates it through
the `cfg.SSHShutdown` pointer), and which temporary dump file was removed.
-/

namespace GoresticHomelab

/-- Go `error` values, modelled by their message text. -/
abbrev Err := String

instance {α β : Type} [DecidableEq α] [DecidableEq β] : DecidableEq (Except α β)
  | .error a, .error b => decidable_of_iff (a = b) (by simp)
  | .error _, .ok _ => isFalse (by simp)
  | .ok _, .error _ => isFalse (by simp)
  | .ok a, .ok b => decidable_of_iff (a = b) (by simp)

/-! ## Data model (`internal/models`) -/

/-- `models.ResticConfig`. -/
structure ResticConfig where
  repository : String
  password : String
  restUser : String
  restPassword : String
  failOnLocked : Bool
  deriving DecidableEq, Repr

/-- `models.BackupSettings`. -/
structure BackupSettings where
  paths : List String
  tags : List String
  host : String
  deriving DecidableEq, Repr

/-- `models.RetentionPolicy`. -/
structure RetentionPolicy where
  keepDaily : Int
  keepWeekly : Int
  keepMonthly : Int
  deriving DecidableEq, Repr

/-- `models.CheckSettings`. -/
structure CheckSettings where
  enabled : Bool
  subset : String
  deriving DecidableEq, Repr

/-- `models.WOLConfig` (durations as abstract ticks). -/
structure WOLConfig where
  macAddress : String
  broadcastIP : String
  pollURL : String
  timeout : Nat
  pollInterval : Nat
  stabilizeWait : Nat
  deriving DecidableEq, Repr

/-- `models.PostgresConfig`. -/
structure PostgresConfig where
  host : String
  port : Int
  database : String
  username : String
  password : String
  format : String
  deriving DecidableEq, Repr

/-- `models.SSHShutdownConfig`; `PrivateKey []byte` is `none` for the Go nil
slice, `some bytes` otherwise. -/
structure SSHShutdownConfig where
  host : String
  port : Int
  username : String
  privateKey : Option (List Nat)
  keyPath : String
  shutdownDelay : Int
  os : String
  deriving DecidableEq, Repr

/-- `models.TelegramConfig`. -/
structure TelegramConfig where
  botToken : String
  chatID : String
  deriving DecidableEq, Repr

/-- `models.BackupConfig`: the full run configuration; the four optional
sub-configurations are `Option`s (`nil` pointers in Go). -/
structure BackupConfig where
  restic : ResticConfig
  backup : BackupSettings
  retention : RetentionPolicy
  check : CheckSettings
  wol : Option WOLConfig
  postgres : Option PostgresConfig
  sshShutdown : Option SSHShutdownConfig
  telegram : Option TelegramConfig
  deriving DecidableEq, Repr

/-- `models.WOLResult`. -/
structure WOLResult where
  packetSent : Bool
  targetReady : Bool
  waitDuration : Nat
  error : Option Err
  deriving DecidableEq, Repr

/-- `models.BackupResult`. -/
structure BackupResult where
  snapshotID : String
  filesNew : Int
  filesChanged : Int
  filesUnmodified : Int
  dataAdded : Int
  totalFilesProcessed : Int
  totalBytesProcessed : Int
  duration : Nat
  error : Option Err
  deriving DecidableEq, Repr

/-- `models.ForgetResult`. -/
structure ForgetResult where
  snapshotsRemoved : Int
  snapshotsKept : Int
  spaceFreed : Int
  duration : Nat
  error : Option Err
  deriving DecidableEq, Repr

/-- `models.CheckResult`. -/
structure CheckResult where
  passed : Bool
  duration : Nat
  error : Option Err
  deriving DecidableEq, Repr

/-- `models.PostgresDumpResult`. -/
structure PostgresDumpResult where
  outputPath : String
  sizeBytes : Int
  duration : Nat
  error : Option Err
  deriving DecidableEq, Repr

/-- `models.SSHResult`. -/
structure SSHResult where
  commandRun : Bool
  output : String
  error : Option Err
  deriving DecidableEq, Repr

/-- `models.TelegramResult`. -/
structure TelegramResult where
  messageSent : Bool
  error : Option Err
  deriving DecidableEq, Repr

/-- `models.TelegramMessage`, as filled by `sendNotificationWithStats`. -/
structure TelegramMessage where
  success : Bool
  host : String
  repository : String
  startTime : Nat
  duration : Nat
  snapshotID : String
  filesNew : Int
  filesChanged : Int
  filesUnmodified : Int
  dataAdded : Int
  totalFiles : Int
  totalBytes : Int
  snapshotsRemoved : Int
  snapshotsKept : Int
  errorMessage : String
  failedStep : String
  deriving DecidableEq, Repr

/-! ## Collaborator responses

One run invokes each collaborator at most once; `Collab` fixes the response
of each call.  `Except.error e` is a Go transport-level error (`err != nil`),
`Except.ok r` a returned result value (which may itself carry a result-level
`error`). -/

/-- The responses of all external collaborators for one run.  `readKey`
models `os.ReadFile(cfg.KeyPath)` inside `runSSHShutdown`. -/
structure Collab where
  wakeRes : Except Err WOLResult
  initRes : Option Err
  dumpRes : Except Err PostgresDumpResult
  backupRes : Except Err BackupResult
  forgetRes : Except Err ForgetResult
  checkRes : Except Err CheckResult
  shutdownRes : Except Err SSHResult
  notifyRes : Except Err TelegramResult
  readKey : Except Err (List Nat)
  deriving DecidableEq, Repr

/-! ## Step helpers of the runner (`runner/service.go`) -/

/-- `runWOL`: transport error and result-level error are both wrapped as
`WOL failed:`; additionally, a target that did not become ready while a poll
URL is configured is a failure. -/
def runWOL (cfg : WOLConfig) (r : Except Err WOLResult) : Option Err :=
  match r with
  | .error e => some ("WOL failed: " ++ e)
  | .ok res =>
    match res.error with
    | some e => some ("WOL failed: " ++ e)
    | none =>
      if !res.targetReady && cfg.pollURL != "" then
        some "target did not become ready after WOL"
      else
        none

/-- `runPostgresDump`: returns the dump result's `OutputPath` on success;
both error shapes are wrapped as `PostgreSQL dump failed:`.  (The generated
output path argument passed to `Dump` is absorbed into the oracle response,
whose `OutputPath` is what the caller uses.) -/
def runPostgresDump (r : Except Err PostgresDumpResult) : Except Err String :=
  match r with
  | .error e => .error ("PostgreSQL dump failed: " ++ e)
  | .ok res =>
    match res.error with
    | some e => .error ("PostgreSQL dump failed: " ++ e)
    | none => .ok res.outputPath

/-- `runSSHShutdown`: loads the private key from `KeyPath` into the config
when `PrivateKey` is nil and `KeyPath` is non-empty (a mutation through the
`cfg.SSHShutdown` pointer, returned here as the second component), then runs
the shutdown command.  A result-level error is tolerated when the command
did run (`CommandRun`), otherwise it is a failure. -/
def runSSHShutdown (cfg : SSHShutdownConfig) (readKey : Except Err (List Nat))
    (r : Except Err SSHResult) : Option Err × SSHShutdownConfig :=
  match (if cfg.privateKey = none ∧ cfg.keyPath ≠ "" then
          match readKey with
          | .error e => Except.error ("failed to read SSH key: " ++ e)
          | .ok k => Except.ok { cfg with privateKey := some k }
        else Except.ok cfg : Except Err SSHShutdownConfig) with
  | .error e => (some e, cfg)
  | .ok cfg2 =>
    match r with
    | .error e => (some ("SSH shutdown failed: " ++ e), cfg2)
    | .ok res =>
      match res.error with
      | some e =>
        if !res.commandRun then (some ("SSH shutdown failed: " ++ e), cfg2)
        else (none, cfg2)
      | none => (none, cfg2)

/-- `sendNotificationWithStats`: builds the Telegram message from the final
run error, the `failedStep` classification and whatever statistics were
captured; absent statistics leave the corresponding fields at their zero
values. -/
def sendNotificationWithStats (cfg : BackupConfig) (startTime elapsed : Nat)
    (failedStep : String) (runErr : Option Err)
    (backupStats : Option BackupResult) (forgetStats : Option ForgetResult) :
    TelegramMessage :=
  let m0 : TelegramMessage :=
    { success := runErr.isNone
      host := cfg.backup.host
      repository := cfg.restic.repository
      startTime := startTime
      duration := elapsed
      snapshotID := ""
      filesNew := 0
      filesChanged := 0
      filesUnmodified := 0
      dataAdded := 0
      totalFiles := 0
      totalBytes := 0
      snapshotsRemoved := 0
      snapshotsKept := 0
      errorMessage := ""
      failedStep := "" }
  let m1 := match runErr with
    | some e => { m0 with failedStep := failedStep, errorMessage := e }
    | none => m0
  let m2 := match backupStats with
    | some b =>
      { m1 with
        snapshotID := b.snapshotID
        filesNew := b.filesNew
        filesChanged := b.filesChanged
        filesUnmodified := b.filesUnmodified
        dataAdded := b.dataAdded
        totalFiles := b.totalFilesProcessed
        totalBytes := b.totalBytesProcessed }
    | none => m1
  match forgetStats with
  | some f =>
    { m2 with
      snapshotsKept := f.snapshotsKept
      snapshotsRemoved := f.snapshotsRemoved }
  | none => m2

/-- Whether `sendNotificationWithStats` reaches its final log line: a
transport error or a result-level error from `SendNotification` is only
logged and aborts nothing. -/
def notifyOutcome (r : Except Err TelegramResult) : Bool :=
  match r with
  | .error _ => false
  | .ok res => res.error.isNone

/-! ## The run body (forward steps 1-6 of `Run`) -/

/-- The collaborator invocations and cleanup actions a run can perform, in
execution order, as recorded in the trace.  `unlock` never occurs in the
shipped `Run` (see the C1 analysis) but is part of the step vocabulary so
that its absence is expressible. -/
inductive Step where
  | wol
  | init
  | unlock
  | postgres
  | backup
  | forget
  | check
  | removeDumpFile
  | shutdown
  | notify
  deriving DecidableEq, Repr

/-- The state of `Run`'s local variables when the forward sequence exits
(either by an early `return` or by reaching the end). -/
structure BodyOut where
  err : Option Err
  failedStep : String
  wolSucceeded : Bool
  backupStats : Option BackupResult
  forgetStats : Option ForgetResult
  pgRegistered : Bool
  pgDumpPath : String
  backupPathsUsed : Option (List String)
  trace : List Step
  deriving DecidableEq, Repr

/-- Steps 5-6 of `Run` (retention and check), entered after a successful
backup whose result is `bs`. -/
def runBodyFromForget (cfg : BackupConfig) (o : Collab) (wolS : Bool)
    (pgReg : Bool) (pgPath : String) (bs : BackupResult)
    (bp : List String) (tr : List Step) : BodyOut :=
  let tr := tr ++ [Step.forget]
  let fail := fun (e : Err) =>
    { err := some ("forget failed: " ++ e), failedStep := "forget",
      wolSucceeded := wolS, backupStats := some bs, forgetStats := none,
      pgRegistered := pgReg, pgDumpPath := pgPath,
      backupPathsUsed := some bp, trace := tr : BodyOut }
  match o.forgetRes with
  | .error e => fail e
  | .ok fr =>
    match fr.error with
    | some e => fail e
    | none =>
      if cfg.check.enabled then
        let tr := tr ++ [Step.check]
        let cfail := fun (e : Option Err) =>
          { err := some (match e with
              | some e0 => "check failed: " ++ e0
              | none => "repository check failed"), failedStep := "check",
            wolSucceeded := wolS, backupStats := some bs,
            forgetStats := some fr, pgRegistered := pgReg,
            pgDumpPath := pgPath, backupPathsUsed := some bp,
            trace := tr : BodyOut }
        match o.checkRes with
        | .error e => cfail (some e)
        | .ok cr =>
          match cr.error with
          | some e => cfail (some e)
          | none =>
            if !cr.passed then cfail none
            else
              { err := none, failedStep := "", wolSucceeded := wolS,
                backupStats := some bs, forgetStats := some fr,
                pgRegistered := pgReg, pgDumpPath := pgPath,
                backupPathsUsed := some bp, trace := tr }
      else
        { err := none, failedStep := "", wolSucceeded := wolS,
          backupStats := some bs, forgetStats := some fr,
          pgRegistered := pgReg, pgDumpPath := pgPath,
          backupPathsUsed := some bp, trace := tr }

/-- Step 4 of `Run` (backup): appends the dump path to the configured paths
when it is non-empty, then invokes the backup; both error shapes abort with
the `backup failed:` wrap. -/
def runBodyFromBackup (cfg : BackupConfig) (o : Collab) (wolS : Bool)
    (pgReg : Bool) (pgPath : String) (tr : List Step) : BodyOut :=
  let bp := if pgPath ≠ "" then cfg.backup.paths ++ [pgPath] else cfg.backup.paths
  let tr := tr ++ [Step.backup]
  let fail := fun (e : Err) =>
    { err := some ("backup failed: " ++ e), failedStep := "backup",
      wolSucceeded := wolS, backupStats := none, forgetStats := none,
      pgRegistered := pgReg, pgDumpPath := pgPath,
      backupPathsUsed := some bp, trace := tr : BodyOut }
  match o.backupRes with
  | .error e => fail e
  | .ok br =>
    match br.error with
    | some e => fail e
    | none => runBodyFromForget cfg o wolS pgReg pgPath br bp tr

/-- Steps 2-3 of `Run` (repository init and optional PostgreSQL dump),
entered with the wake outcome `wolS` and the trace so far. -/
def runBodyFromInit (cfg : BackupConfig) (o : Collab) (wolS : Bool)
    (tr : List Step) : BodyOut :=
  let tr := tr ++ [Step.init]
  match o.initRes with
  | some e =>
    { err := some ("init failed: " ++ e), failedStep := "init",
      wolSucceeded := wolS, backupStats := none, forgetStats := none,
      pgRegistered := false, pgDumpPath := "", backupPathsUsed := none,
      trace := tr }
  | none =>
    match cfg.postgres with
    | some _ =>
      let tr := tr ++ [Step.postgres]
      match runPostgresDump o.dumpRes with
      | .error e =>
        { err := some e, failedStep := "postgres", wolSucceeded := wolS,
          backupStats := none, forgetStats := none, pgRegistered := false,
          pgDumpPath := "", backupPathsUsed := none, trace := tr }
      | .ok p => runBodyFromBackup cfg o wolS true p tr
    | none => runBodyFromBackup cfg o wolS false "" tr

/-- The whole forward sequence of `Run` (step 1, wake, then the rest). -/
def runBody (cfg : BackupConfig) (o : Collab) : BodyOut :=
  match cfg.wol with
  | some w =>
    match runWOL w o.wakeRes with
    | some e =>
      { err := some e, failedStep := "wol", wolSucceeded := false,
        backupStats := none, forgetStats := none, pgRegistered := false,
        pgDumpPath := "", backupPathsUsed := none, trace := [Step.wol] }
    | none => runBodyFromInit cfg o true [Step.wol]
  | none => runBodyFromInit cfg o false []

/-! ## The deferred compensating actions and the full run -/

/-- Outcome of the deferred SSH shutdown action. -/
structure ShutdownPhaseOut where
  ran : Bool
  err : Option Err
  cfgAfter : Option SSHShutdownConfig
  deriving DecidableEq, Repr

/-- The deferred SSH shutdown of `Run`: runs when the shutdown sub-config is
present and either WOL was not configured (`wolAttempted` is exactly
`cfg.WOL != nil`) or WOL succeeded. -/
def shutdownPhase (cfg : BackupConfig) (o : Collab) (wolSucceeded : Bool) :
    ShutdownPhaseOut :=
  match cfg.sshShutdown with
  | none => { ran := false, err := none, cfgAfter := none }
  | some sc =>
    if !cfg.wol.isSome || wolSucceeded then
      let r := runSSHShutdown sc o.readKey o.shutdownRes
      { ran := true, err := r.fst, cfgAfter := some r.snd }
    else
      { ran := false, err := none, cfgAfter := some sc }

/-- Everything observable about one completed `Run`. -/
structure RunOutcome where
  error : Option Err
  failedStep : String
  backupStats : Option BackupResult
  forgetStats : Option ForgetResult
  message : Option TelegramMessage
  finalSSHConfig : Option SSHShutdownConfig
  shutdownRan : Bool
  dumpFileRemoved : Option String
  notifySent : Bool
  backupPathsUsed : Option (List String)
  trace : List Step
  deriving DecidableEq, Repr

/-- `Run`: the forward sequence followed by the deferred actions in LIFO
order — dump-file removal (registered last, only after a successful dump),
then SSH shutdown (whose failure becomes the terminal error only when no
forward error exists), then the Telegram notification built from the final
error and `failedStep`. -/
def run (cfg : BackupConfig) (o : Collab) (startTime elapsed : Nat) :
    RunOutcome :=
  let b := runBody cfg o
  let sd := shutdownPhase cfg o b.wolSucceeded
  let finalErr := match sd.err with
    | some e => match b.err with
      | none => some e
      | some be => some be
    | none => b.err
  let finalStep := match sd.err with
    | some _ => match b.err with
      | none => "ssh_shutdown"
      | some _ => b.failedStep
    | none => b.failedStep
  { error := finalErr
    failedStep := finalStep
    backupStats := b.backupStats
    forgetStats := b.forgetStats
    message := match cfg.telegram with
      | some _ => some (sendNotificationWithStats cfg startTime elapsed
          finalStep finalErr b.backupStats b.forgetStats)
      | none => none
    finalSSHConfig := sd.cfgAfter
    shutdownRan := sd.ran
    dumpFileRemoved := if b.pgRegistered then some b.pgDumpPath else none
    notifySent := match cfg.telegram with
      | some _ => notifyOutcome o.notifyRes
      | none => false
    backupPathsUsed := b.backupPathsUsed
    trace := b.trace
      ++ (if b.pgRegistered then [Step.removeDumpFile] else [])
      ++ (if sd.ran then [Step.shutdown] else [])
      ++ (if cfg.telegram.isSome then [Step.notify] else []) }

/-! ## The restic `Init` operation (`services/restic`, part of C8) -/

/-- `restic.Impl.Init`: probes the repository with `restic snapshots`; when
that command succeeds the repository is already initialized and `Init`
returns nil, otherwise `restic init` runs and only its failure is an error.
`snapExec` and `initExec` are the combined outputs of the two executor
calls. -/
def resticInit (snapExec : Except Err String) (initExec : Except Err String) :
    Option Err :=
  match snapExec with
  | .ok _ => none
  | .error _ =>
    match initExec with
    | .ok _ => none
    | .error e => some ("failed to initialize repository: " ++ e)

/-! ## Phase predicates

Booleans over the collaborator responses describing whether each forward
phase passes, mirroring the checks the runner performs. -/

/-- `wolSucceeded` at the end of step 1: false when WOL is not configured. -/
def wolOK (cfg : BackupConfig) (o : Collab) : Bool :=
  match cfg.wol with
  | none => false
  | some w => (runWOL w o.wakeRes).isNone

/-- The wake phase does not abort the run (not configured, or succeeded). -/
def wolPhaseOK (cfg : BackupConfig) (o : Collab) : Bool :=
  match cfg.wol with
  | none => true
  | some w => (runWOL w o.wakeRes).isNone

/-- The dump phase does not abort the run (not configured, or succeeded). -/
def dumpPhaseOK (cfg : BackupConfig) (o : Collab) : Bool :=
  match cfg.postgres with
  | none => true
  | some _ =>
    match runPostgresDump o.dumpRes with
    | .ok _ => true
    | .error _ => false

/-- The backup call fails (transport error or result-level error). -/
def backupFails (o : Collab) : Bool :=
  match o.backupRes with
  | .error _ => true
  | .ok br => br.error.isSome

/-- The forget call fails (transport error or result-level error). -/
def forgetFails (o : Collab) : Bool :=
  match o.forgetRes with
  | .error _ => true
  | .ok fr => fr.error.isSome

/-- The check call fails (transport error, result-level error, or did not
pass). -/
def checkFails (o : Collab) : Bool :=
  match o.checkRes with
  | .error _ => true
  | .ok cr => cr.error.isSome || !cr.passed

/-! ## Concrete fixtures for witnesses and counterexamples -/

/-- A minimal configuration: one path, no optional sub-configurations. -/
def cfg0 : BackupConfig :=
  { restic :=
      { repository := "/backup"
        password := "secret"
        restUser := ""
        restPassword := ""
        failOnLocked := true }
    backup := { paths := ["/data"], tags := [], host := "testhost" }
    retention := { keepDaily := 7, keepWeekly := 4, keepMonthly := 6 }
    check := { enabled := false, subset := "" }
    wol := none
    postgres := none
    sshShutdown := none
    telegram := none }

/-- A clean database dump result. -/
def pdOk : PostgresDumpResult :=
  { outputPath := "/tmp/db.dump"
    sizeBytes := 10
    duration := 0
    error := none }

/-- A clean backup result. -/
def brOk : BackupResult :=
  { snapshotID := "abc123"
    filesNew := 1
    filesChanged := 2
    filesUnmodified := 3
    dataAdded := 4
    totalFilesProcessed := 5
    totalBytesProcessed := 6
    duration := 0
    error := none }

/-- A clean forget result. -/
def frOk : ForgetResult :=
  { snapshotsRemoved := 2
    snapshotsKept := 5
    spaceFreed := 0
    duration := 0
    error := none }

/-- Collaborator responses where every call succeeds cleanly. -/
def okCollab : Collab :=
  { wakeRes := Except.ok
      { packetSent := true
        targetReady := true
        waitDuration := 0
        error := none }
    initRes := none
    dumpRes := Except.ok pdOk
    backupRes := Except.ok brOk
    forgetRes := Except.ok frOk
    checkRes := Except.ok { passed := true, duration := 0, error := none }
    shutdownRes := Except.ok { commandRun := true, output := "", error := none }
    notifyRes := Except.ok { messageSent := true, error := none }
    readKey := Except.ok [1, 2, 3] }

/-- A shutdown sub-configuration with an already-loaded private key. -/
def scLoaded : SSHShutdownConfig :=
  { host := "nas"
    port := 22
    username := "root"
    privateKey := some [7]
    keyPath := ""
    shutdownDelay := 1
    os := "linux" }

/-- A wake sub-configuration with a poll URL. -/
def wolCfg1 : WOLConfig :=
  { macAddress := "aa:bb:cc:dd:ee:ff"
    broadcastIP := "192.168.1.255"
    pollURL := "http://nas/health"
    timeout := 60
    pollInterval := 5
    stabilizeWait := 10 }

/-- A database-dump sub-configuration. -/
def pgCfg1 : PostgresConfig :=
  { host := "db"
    port := 5432
    database := "app"
    username := "u"
    password := "p"
    format := "custom" }

/-- A shutdown sub-configuration with no loaded key and a key path. -/
def scKeyPath : SSHShutdownConfig :=
  { host := "nas"
    port := 22
    username := "root"
    privateKey := none
    keyPath := "/root/.ssh/id_ed25519"
    shutdownDelay := 1
    os := "linux" }

/-- A configuration whose shutdown sub-configuration must load its key. -/
def cfgKeyPath : BackupConfig := { cfg0 with sshShutdown := some scKeyPath }

/-- A Telegram sub-configuration for witnesses. -/
def tg1 : TelegramConfig := { botToken := "123:ABC", chatID := "-100123" }

/-- Notification configured, integrity check enabled. -/
def cfgTgCheck : BackupConfig :=
  { cfg0 with telegram := some tg1, check := { enabled := true, subset := "" } }

/-- Notification configured, check disabled. -/
def cfgTg : BackupConfig := { cfg0 with telegram := some tg1 }

/-- All collaborators succeed except the check, which does not pass. -/
def oCheckFail : Collab :=
  { okCollab with
      checkRes := Except.ok { passed := false, duration := 0, error := none } }

/-- All collaborators succeed except the backup, whose transport fails. -/
def oBackupFail : Collab :=
  { okCollab with backupRes := Except.error "disk full" }

/-- All collaborators succeed; the shutdown command ran but its result
carries an error (the usual connection-drop on remote shutdown). -/
def oShutdownResultErr : Collab :=
  { okCollab with
      shutdownRes := Except.ok
        { commandRun := true
          output := "conn closed by remote host"
          error := some "exit status 255" } }


/-! ## Projection lemmas for the body helpers -/

lemma fromForget_wolSucceeded (cfg : BackupConfig) (o : Collab) (wolS pgReg : Bool)
    (pgPath : String) (bs : BackupResult) (bp : List String) (tr : List Step) :
    (runBodyFromForget cfg o wolS pgReg pgPath bs bp tr).wolSucceeded = wolS := by
  simp only [runBodyFromForget]
  repeat' split
  all_goals rfl

lemma fromBackup_wolSucceeded (cfg : BackupConfig) (o : Collab) (wolS pgReg : Bool)
    (pgPath : String) (tr : List Step) :
    (runBodyFromBackup cfg o wolS pgReg pgPath tr).wolSucceeded = wolS := by
  simp only [runBodyFromBackup]
  repeat' split
  all_goals first
  | rfl
  | exact fromForget_wolSucceeded ..

lemma fromInit_wolSucceeded (cfg : BackupConfig) (o : Collab) (wolS : Bool)
    (tr : List Step) :
    (runBodyFromInit cfg o wolS tr).wolSucceeded = wolS := by
  simp only [runBodyFromInit]
  repeat' split
  all_goals first
  | rfl
  | exact fromBackup_wolSucceeded ..

lemma runBody_wolSucceeded (cfg : BackupConfig) (o : Collab) :
    (runBody cfg o).wolSucceeded = wolOK cfg o := by
  simp only [runBody, wolOK]
  rcases hw : cfg.wol with _ | w
  · exact fromInit_wolSucceeded ..
  · rcases hr : runWOL w o.wakeRes with _ | e
    · simp [hr, fromInit_wolSucceeded]
    · simp [hr]

lemma mem_ite_list {α : Type} {x : α} {c : Prop} [Decidable c] {l1 l2 : List α}
    (h : x ∈ (if c then l1 else l2)) : x ∈ l1 ∨ x ∈ l2 := by
  split at h <;> tauto

lemma fromForget_trace_mem (cfg : BackupConfig) (o : Collab) (wolS pgReg : Bool)
    (pgPath : String) (bs : BackupResult) (bp : List String) (tr : List Step)
    (x : Step) (h : x ∈ (runBodyFromForget cfg o wolS pgReg pgPath bs bp tr).trace) :
    x ∈ tr ∨ x = Step.forget ∨ x = Step.check := by
  simp only [runBodyFromForget] at h
  repeat' split at h
  all_goals simp only [List.mem_append, List.mem_singleton] at h
  all_goals tauto

lemma fromBackup_trace_mem (cfg : BackupConfig) (o : Collab) (wolS pgReg : Bool)
    (pgPath : String) (tr : List Step) (x : Step)
    (h : x ∈ (runBodyFromBackup cfg o wolS pgReg pgPath tr).trace) :
    x ∈ tr ∨ x = Step.backup ∨ x = Step.forget ∨ x = Step.check := by
  simp only [runBodyFromBackup] at h
  repeat' split at h
  all_goals first
  | · rcases fromForget_trace_mem _ _ _ _ _ _ _ _ _ h with h1 | h1 | h1
      · simp only [List.mem_append, List.mem_singleton] at h1
        tauto
      · tauto
      · tauto
  | · simp only [List.mem_append, List.mem_singleton] at h
      tauto

lemma fromInit_trace_mem (cfg : BackupConfig) (o : Collab) (wolS : Bool)
    (tr : List Step) (x : Step)
    (h : x ∈ (runBodyFromInit cfg o wolS tr).trace) :
    x ∈ tr ∨ x = Step.init ∨ x = Step.postgres ∨ x = Step.backup ∨
      x = Step.forget ∨ x = Step.check := by
  simp only [runBodyFromInit] at h
  repeat' split at h
  all_goals first
  | · rcases fromBackup_trace_mem _ _ _ _ _ _ _ h with h1 | h1 | h1 | h1
      · simp only [List.mem_append, List.mem_singleton] at h1
        tauto
      · tauto
      · tauto
      · tauto
  | · simp only [List.mem_append, List.mem_singleton] at h
      tauto

lemma runBody_trace_mem (cfg : BackupConfig) (o : Collab) (x : Step)
    (h : x ∈ (runBody cfg o).trace) :
    x = Step.wol ∨ x = Step.init ∨ x = Step.postgres ∨ x = Step.backup ∨
      x = Step.forget ∨ x = Step.check := by
  simp only [runBody] at h
  repeat' split at h
  all_goals first
  | · rcases fromInit_trace_mem _ _ _ _ _ h with h1 | h1 | h1 | h1 | h1 | h1 <;>
        simp_all
  | · simp only [List.mem_singleton] at h
      tauto

/-! ## Run-level projection and decomposition lemmas -/

lemma run_shutdownRan_eq (cfg : BackupConfig) (o : Collab) (st el : Nat) :
    (run cfg o st el).shutdownRan =
      (shutdownPhase cfg o (runBody cfg o).wolSucceeded).ran := rfl

lemma run_finalSSH_eq (cfg : BackupConfig) (o : Collab) (st el : Nat) :
    (run cfg o st el).finalSSHConfig =
      (shutdownPhase cfg o (runBody cfg o).wolSucceeded).cfgAfter := rfl

lemma run_backupPathsUsed_eq (cfg : BackupConfig) (o : Collab) (st el : Nat) :
    (run cfg o st el).backupPathsUsed = (runBody cfg o).backupPathsUsed := rfl

lemma run_dumpFileRemoved_eq (cfg : BackupConfig) (o : Collab) (st el : Nat) :
    (run cfg o st el).dumpFileRemoved =
      (if (runBody cfg o).pgRegistered then some (runBody cfg o).pgDumpPath
       else none) := rfl

lemma run_trace_eq (cfg : BackupConfig) (o : Collab) (st el : Nat) :
    (run cfg o st el).trace = (runBody cfg o).trace
      ++ (if (runBody cfg o).pgRegistered then [Step.removeDumpFile] else [])
      ++ (if (shutdownPhase cfg o (runBody cfg o).wolSucceeded).ran
          then [Step.shutdown] else [])
      ++ (if cfg.telegram.isSome then [Step.notify] else []) := rfl

lemma run_trace_mem (cfg : BackupConfig) (o : Collab) (st el : Nat) (x : Step)
    (h : x ∈ (run cfg o st el).trace) :
    x ∈ (runBody cfg o).trace ∨ x = Step.removeDumpFile ∨ x = Step.shutdown ∨
      x = Step.notify := by
  rw [run_trace_eq] at h
  simp only [List.mem_append] at h
  rcases h with ((h | h) | h) | h
  · tauto
  · rcases mem_ite_list h with h1 | h1 <;> simp_all
  · rcases mem_ite_list h with h1 | h1 <;> simp_all
  · rcases mem_ite_list h with h1 | h1 <;> simp_all

lemma run_error_of_body_err (cfg : BackupConfig) (o : Collab) (st el : Nat)
    (e : Err) (h : (runBody cfg o).err = some e) :
    (run cfg o st el).error = some e ∧
      (run cfg o st el).failedStep = (runBody cfg o).failedStep := by
  constructor <;>
    · show (match (shutdownPhase cfg o (runBody cfg o).wolSucceeded).err with
        | some _ => _ | none => _) = _
      rcases (shutdownPhase cfg o (runBody cfg o).wolSucceeded).err with _ | e2 <;>
        simp [h]

lemma run_error_of_body_ok (cfg : BackupConfig) (o : Collab) (st el : Nat)
    (h : (runBody cfg o).err = none) :
    (run cfg o st el).error = (shutdownPhase cfg o (runBody cfg o).wolSucceeded).err ∧
      ((shutdownPhase cfg o (runBody cfg o).wolSucceeded).err = none →
        (run cfg o st el).failedStep = (runBody cfg o).failedStep) ∧
      (∀ e, (shutdownPhase cfg o (runBody cfg o).wolSucceeded).err = some e →
        (run cfg o st el).failedStep = "ssh_shutdown") := by
  refine ⟨?_, ?_, ?_⟩
  · show (match (shutdownPhase cfg o (runBody cfg o).wolSucceeded).err with
      | some _ => _ | none => _) = _
    rcases (shutdownPhase cfg o (runBody cfg o).wolSucceeded).err with _ | e2 <;>
      simp [h]
  · intro hsd
    show (match (shutdownPhase cfg o (runBody cfg o).wolSucceeded).err with
      | some _ => _ | none => _) = _
    simp [hsd]
  · intro e hsd
    show (match (shutdownPhase cfg o (runBody cfg o).wolSucceeded).err with
      | some _ => _ | none => _) = _
    simp [hsd, h]

/-! ## Phase-driven reduction lemmas -/

lemma runBody_eq_fromInit (cfg : BackupConfig) (o : Collab)
    (h : wolPhaseOK cfg o = true) :
    runBody cfg o = runBodyFromInit cfg o (wolOK cfg o)
      (if cfg.wol.isSome then [Step.wol] else []) := by
  rcases hw : cfg.wol with _ | w
  · simp [runBody, wolOK, hw]
  · have h2 : runWOL w o.wakeRes = none := by
      simp only [wolPhaseOK, hw] at h
      exact Option.isNone_iff_eq_none.mp h
    simp [runBody, wolOK, hw, h2]

lemma fromInit_eq_fromBackup_nopg (cfg : BackupConfig) (o : Collab) (wolS : Bool)
    (tr : List Step) (hi : o.initRes = none) (hp : cfg.postgres = none) :
    runBodyFromInit cfg o wolS tr =
      runBodyFromBackup cfg o wolS false "" (tr ++ [Step.init]) := by
  simp [runBodyFromInit, hi, hp]

lemma fromInit_eq_fromBackup_pg (cfg : BackupConfig) (o : Collab) (wolS : Bool)
    (tr : List Step) (pc : PostgresConfig) (p : String)
    (hi : o.initRes = none) (hp : cfg.postgres = some pc)
    (hd : runPostgresDump o.dumpRes = Except.ok p) :
    runBodyFromInit cfg o wolS tr =
      runBodyFromBackup cfg o wolS true p ((tr ++ [Step.init]) ++ [Step.postgres]) := by
  simp [runBodyFromInit, hi, hp, hd]

lemma fromInit_dumpFail (cfg : BackupConfig) (o : Collab) (wolS : Bool)
    (tr : List Step) (pc : PostgresConfig) (e : Err)
    (hi : o.initRes = none) (hp : cfg.postgres = some pc)
    (hd : runPostgresDump o.dumpRes = Except.error e) :
    runBodyFromInit cfg o wolS tr =
      { err := some e, failedStep := "postgres", wolSucceeded := wolS,
        backupStats := none, forgetStats := none, pgRegistered := false,
        pgDumpPath := "", backupPathsUsed := none,
        trace := (tr ++ [Step.init]) ++ [Step.postgres] } := by
  simp [runBodyFromInit, hi, hp, hd]

lemma fromBackup_transportErr (cfg : BackupConfig) (o : Collab) (wolS pgReg : Bool)
    (pgPath : String) (tr : List Step) (e : Err)
    (hb : o.backupRes = Except.error e) :
    runBodyFromBackup cfg o wolS pgReg pgPath tr =
      { err := some ("backup failed: " ++ e), failedStep := "backup",
        wolSucceeded := wolS, backupStats := none, forgetStats := none,
        pgRegistered := pgReg, pgDumpPath := pgPath,
        backupPathsUsed := some (if pgPath ≠ "" then cfg.backup.paths ++ [pgPath]
          else cfg.backup.paths),
        trace := tr ++ [Step.backup] } := by
  simp only [runBodyFromBackup, hb]

lemma fromBackup_resultErr (cfg : BackupConfig) (o : Collab) (wolS pgReg : Bool)
    (pgPath : String) (tr : List Step) (br : BackupResult) (e : Err)
    (hb : o.backupRes = Except.ok br) (hbe : br.error = some e) :
    runBodyFromBackup cfg o wolS pgReg pgPath tr =
      { err := some ("backup failed: " ++ e), failedStep := "backup",
        wolSucceeded := wolS, backupStats := none, forgetStats := none,
        pgRegistered := pgReg, pgDumpPath := pgPath,
        backupPathsUsed := some (if pgPath ≠ "" then cfg.backup.paths ++ [pgPath]
          else cfg.backup.paths),
        trace := tr ++ [Step.backup] } := by
  simp only [runBodyFromBackup, hb, hbe]

lemma fromBackup_eq_fromForget (cfg : BackupConfig) (o : Collab) (wolS pgReg : Bool)
    (pgPath : String) (tr : List Step) (br : BackupResult)
    (hb : o.backupRes = Except.ok br) (hbe : br.error = none) :
    runBodyFromBackup cfg o wolS pgReg pgPath tr =
      runBodyFromForget cfg o wolS pgReg pgPath br
        (if pgPath ≠ "" then cfg.backup.paths ++ [pgPath] else cfg.backup.paths)
        (tr ++ [Step.backup]) := by
  simp only [runBodyFromBackup, hb, hbe]

lemma fromForget_transportErr (cfg : BackupConfig) (o : Collab) (wolS pgReg : Bool)
    (pgPath : String) (bs : BackupResult) (bp : List String) (tr : List Step)
    (e : Err) (hf : o.forgetRes = Except.error e) :
    runBodyFromForget cfg o wolS pgReg pgPath bs bp tr =
      { err := some ("forget failed: " ++ e), failedStep := "forget",
        wolSucceeded := wolS, backupStats := some bs, forgetStats := none,
        pgRegistered := pgReg, pgDumpPath := pgPath, backupPathsUsed := some bp,
        trace := tr ++ [Step.forget] } := by
  simp only [runBodyFromForget, hf]

lemma fromForget_resultErr (cfg : BackupConfig) (o : Collab) (wolS pgReg : Bool)
    (pgPath : String) (bs : BackupResult) (bp : List String) (tr : List Step)
    (fr : ForgetResult) (e : Err)
    (hf : o.forgetRes = Except.ok fr) (hfe : fr.error = some e) :
    runBodyFromForget cfg o wolS pgReg pgPath bs bp tr =
      { err := some ("forget failed: " ++ e), failedStep := "forget",
        wolSucceeded := wolS, backupStats := some bs, forgetStats := none,
        pgRegistered := pgReg, pgDumpPath := pgPath, backupPathsUsed := some bp,
        trace := tr ++ [Step.forget] } := by
  simp only [runBodyFromForget, hf, hfe]

lemma fromForget_checkFail (cfg : BackupConfig) (o : Collab) (wolS pgReg : Bool)
    (pgPath : String) (bs : BackupResult) (bp : List String) (tr : List Step)
    (fr : ForgetResult)
    (hf : o.forgetRes = Except.ok fr) (hfe : fr.error = none)
    (hc : cfg.check.enabled = true) (hk : checkFails o = true) :
    ∃ e, runBodyFromForget cfg o wolS pgReg pgPath bs bp tr =
      { err := some e, failedStep := "check",
        wolSucceeded := wolS, backupStats := some bs, forgetStats := some fr,
        pgRegistered := pgReg, pgDumpPath := pgPath, backupPathsUsed := some bp,
        trace := (tr ++ [Step.forget]) ++ [Step.check] } := by
  rcases hck : o.checkRes with e | cr
  · exact ⟨"check failed: " ++ e, by simp [runBodyFromForget, hf, hfe, hc, hck]⟩
  · simp only [checkFails, hck] at hk
    rcases hce : cr.error with _ | e
    · simp only [hce, Option.isSome_none, Bool.false_or] at hk
      exact ⟨"repository check failed",
        by simp [runBodyFromForget, hf, hfe, hc, hck, hce, hk]⟩
    · exact ⟨"check failed: " ++ e,
        by simp [runBodyFromForget, hf, hfe, hc, hck, hce]⟩

lemma fromForget_ok (cfg : BackupConfig) (o : Collab) (wolS pgReg : Bool)
    (pgPath : String) (bs : BackupResult) (bp : List String) (tr : List Step)
    (fr : ForgetResult)
    (hf : o.forgetRes = Except.ok fr) (hfe : fr.error = none)
    (hok : cfg.check.enabled = false ∨ (∃ cr, o.checkRes = Except.ok cr ∧
      cr.error = none ∧ cr.passed = true)) :
    runBodyFromForget cfg o wolS pgReg pgPath bs bp tr =
      { err := none, failedStep := "",
        wolSucceeded := wolS, backupStats := some bs, forgetStats := some fr,
        pgRegistered := pgReg, pgDumpPath := pgPath, backupPathsUsed := some bp,
        trace := tr ++ [Step.forget] ++
          (if cfg.check.enabled then [Step.check] else []) } := by
  rcases hok with hc | ⟨cr, hck, hce, hcp⟩
  · simp [runBodyFromForget, hf, hfe, hc]
  · rcases hc : cfg.check.enabled with _ | _
    · simp [runBodyFromForget, hf, hfe, hc]
    · simp [runBodyFromForget, hf, hfe, hc, hck, hce, hcp]

/-! ## Conditional non-membership: a step that failed blocks all later steps -/

lemma fromBackup_no_forget (cfg : BackupConfig) (o : Collab) (wolS pgReg : Bool)
    (pgPath : String) (tr : List Step)
    (hb : backupFails o = true) (htr : Step.forget ∉ tr) :
    Step.forget ∉ (runBodyFromBackup cfg o wolS pgReg pgPath tr).trace := by
  rcases hbr : o.backupRes with e | br
  · rw [fromBackup_transportErr cfg o wolS pgReg pgPath tr e hbr]
    simp [List.mem_append, htr]
  · simp only [backupFails, hbr] at hb
    rcases hbe : br.error with _ | e
    · simp [hbe] at hb
    · rw [fromBackup_resultErr cfg o wolS pgReg pgPath tr br e hbr hbe]
      simp [List.mem_append, htr]

lemma runBody_no_forget (cfg : BackupConfig) (o : Collab)
    (hb : backupFails o = true) : Step.forget ∉ (runBody cfg o).trace := by
  simp only [runBody, runBodyFromInit]
  repeat' split
  all_goals first
  | · exact fromBackup_no_forget _ _ _ _ _ _ hb (by simp)
  | · simp

lemma fromForget_no_check (cfg : BackupConfig) (o : Collab) (wolS pgReg : Bool)
    (pgPath : String) (bs : BackupResult) (bp : List String) (tr : List Step)
    (hf : forgetFails o = true) (htr : Step.check ∉ tr) :
    Step.check ∉ (runBodyFromForget cfg o wolS pgReg pgPath bs bp tr).trace := by
  rcases hfr : o.forgetRes with e | fr
  · rw [fromForget_transportErr cfg o wolS pgReg pgPath bs bp tr e hfr]
    simp [List.mem_append, htr]
  · simp only [forgetFails, hfr] at hf
    rcases hfe : fr.error with _ | e
    · simp [hfe] at hf
    · rw [fromForget_resultErr cfg o wolS pgReg pgPath bs bp tr fr e hfr hfe]
      simp [List.mem_append, htr]

lemma runBody_no_check (cfg : BackupConfig) (o : Collab)
    (hf : forgetFails o = true) : Step.check ∉ (runBody cfg o).trace := by
  simp only [runBody, runBodyFromInit, runBodyFromBackup]
  repeat' split
  all_goals first
  | · exact fromForget_no_check _ _ _ _ _ _ _ _ hf (by simp)
  | · simp

/-! ## Shutdown phase lemmas -/

lemma shutdownPhase_nocfg (cfg : BackupConfig) (o : Collab) (ws : Bool)
    (h : cfg.sshShutdown = none) :
    shutdownPhase cfg o ws = { ran := false, err := none, cfgAfter := none } := by
  simp [shutdownPhase, h]

lemma shutdownPhase_skip (cfg : BackupConfig) (o : Collab) (ws : Bool)
    (sc : SSHShutdownConfig) (h : cfg.sshShutdown = some sc)
    (hg : (!cfg.wol.isSome || ws) = false) :
    shutdownPhase cfg o ws = { ran := false, err := none, cfgAfter := some sc } := by
  simp only [shutdownPhase, h]
  rw [hg]
  simp

lemma shutdownPhase_go (cfg : BackupConfig) (o : Collab) (ws : Bool)
    (sc : SSHShutdownConfig) (h : cfg.sshShutdown = some sc)
    (hg : (!cfg.wol.isSome || ws) = true) :
    shutdownPhase cfg o ws =
      { ran := true, err := (runSSHShutdown sc o.readKey o.shutdownRes).fst,
        cfgAfter := some (runSSHShutdown sc o.readKey o.shutdownRes).snd } := by
  simp only [shutdownPhase, h]
  rw [hg]
  simp

/-! ## Lemmas about `runSSHShutdown` -/

lemma rss_transportErr (sc : SSHShutdownConfig) (k : Except Err (List Nat))
    (r : Except Err SSHResult) (e : Err) (hr : r = Except.error e) :
    (runSSHShutdown sc k r).fst ≠ none := by
  simp only [runSSHShutdown, hr]
  repeat' split
  all_goals simp_all

lemma rss_resultErr_notRun (sc : SSHShutdownConfig) (k : Except Err (List Nat))
    (r : Except Err SSHResult) (res : SSHResult) (e : Err)
    (hr : r = Except.ok res) (he : res.error = some e)
    (hc : res.commandRun = false) :
    (runSSHShutdown sc k r).fst ≠ none := by
  simp only [runSSHShutdown, hr, he]
  repeat' split
  all_goals simp_all

lemma rss_resultErr_run (sc : SSHShutdownConfig) (k : Except Err (List Nat))
    (r : Except Err SSHResult) (res : SSHResult) (e : Err)
    (hr : r = Except.ok res) (he : res.error = some e)
    (hc : res.commandRun = true)
    (hk : sc.privateKey ≠ none ∨ sc.keyPath = "") :
    (runSSHShutdown sc k r).fst = none := by
  have hcond : ¬(sc.privateKey = none ∧ sc.keyPath ≠ "") := by tauto
  simp [runSSHShutdown, hr, he, hc, hcond]

lemma rss_cfgAfter (sc : SSHShutdownConfig) (k : Except Err (List Nat))
    (r : Except Err SSHResult) :
    (runSSHShutdown sc k r).snd = sc ∨
      (sc.privateKey = none ∧ sc.keyPath ≠ "" ∧ ∃ key, k = Except.ok key ∧
        (runSSHShutdown sc k r).snd = { sc with privateKey := some key }) := by
  by_cases hcond : sc.privateKey = none ∧ sc.keyPath ≠ ""
  · rcases hk : k with e | key
    · left
      simp [runSSHShutdown, hcond, hk]
    · right
      refine ⟨hcond.1, hcond.2, key, rfl, ?_⟩
      simp only [runSSHShutdown, hcond, hk, if_pos]
      repeat' split
      all_goals simp_all
  · left
    simp only [runSSHShutdown, hcond, if_neg]
    repeat' split
    all_goals simp_all

/-! ## Notification lemmas -/

lemma send_fields_err_full (cfg : BackupConfig) (st el : Nat) (fs : String)
    (e : Err) (br : BackupResult) (fr : ForgetResult) :
    (sendNotificationWithStats cfg st el fs (some e) (some br) (some fr)) =
      { success := false, host := cfg.backup.host,
        repository := cfg.restic.repository, startTime := st, duration := el,
        snapshotID := br.snapshotID, filesNew := br.filesNew,
        filesChanged := br.filesChanged, filesUnmodified := br.filesUnmodified,
        dataAdded := br.dataAdded, totalFiles := br.totalFilesProcessed,
        totalBytes := br.totalBytesProcessed,
        snapshotsRemoved := fr.snapshotsRemoved,
        snapshotsKept := fr.snapshotsKept,
        errorMessage := e, failedStep := fs } := by
  simp [sendNotificationWithStats]

lemma send_fields_err_nostats (cfg : BackupConfig) (st el : Nat) (fs : String)
    (e : Err) :
    (sendNotificationWithStats cfg st el fs (some e) none none) =
      { success := false, host := cfg.backup.host,
        repository := cfg.restic.repository, startTime := st, duration := el,
        snapshotID := "", filesNew := 0, filesChanged := 0, filesUnmodified := 0,
        dataAdded := 0, totalFiles := 0, totalBytes := 0,
        snapshotsRemoved := 0, snapshotsKept := 0,
        errorMessage := e, failedStep := fs } := by
  simp [sendNotificationWithStats]

lemma run_message_eq (cfg : BackupConfig) (o : Collab) (st el : Nat)
    (t : TelegramConfig) (h : cfg.telegram = some t) :
    (run cfg o st el).message = some (sendNotificationWithStats cfg st el
      (run cfg o st el).failedStep (run cfg o st el).error
      (runBody cfg o).backupStats (runBody cfg o).forgetStats) := by
  show (match cfg.telegram with
    | some _ => some (sendNotificationWithStats cfg st el _ _ _ _)
    | none => none) = _
  rw [h]
  rfl

/-! ## More projection lemmas -/

lemma fromForget_trace_ext (cfg : BackupConfig) (o : Collab) (wolS pgReg : Bool)
    (pgPath : String) (bs : BackupResult) (bp : List String) (tr : List Step) :
    ∃ s, (runBodyFromForget cfg o wolS pgReg pgPath bs bp tr).trace = tr ++ s := by
  simp only [runBodyFromForget]
  repeat' split
  all_goals first
  | exact ⟨[Step.forget], rfl⟩
  | exact ⟨[Step.forget, Step.check], by simp⟩

lemma fromBackup_backup_mem (cfg : BackupConfig) (o : Collab) (wolS pgReg : Bool)
    (pgPath : String) (tr : List Step) :
    Step.backup ∈ (runBodyFromBackup cfg o wolS pgReg pgPath tr).trace := by
  simp only [runBodyFromBackup]
  repeat' split
  all_goals first
  | · obtain ⟨s, hs⟩ := fromForget_trace_ext ..
      rw [hs]
      simp
  | · simp

lemma fromForget_proj (cfg : BackupConfig) (o : Collab) (wolS pgReg : Bool)
    (pgPath : String) (bs : BackupResult) (bp : List String) (tr : List Step) :
    (runBodyFromForget cfg o wolS pgReg pgPath bs bp tr).pgRegistered = pgReg ∧
    (runBodyFromForget cfg o wolS pgReg pgPath bs bp tr).pgDumpPath = pgPath ∧
    (runBodyFromForget cfg o wolS pgReg pgPath bs bp tr).backupPathsUsed = some bp ∧
    (runBodyFromForget cfg o wolS pgReg pgPath bs bp tr).failedStep ≠ "init" := by
  simp only [runBodyFromForget]
  repeat' split
  all_goals simp

lemma fromBackup_proj (cfg : BackupConfig) (o : Collab) (wolS pgReg : Bool)
    (pgPath : String) (tr : List Step) :
    (runBodyFromBackup cfg o wolS pgReg pgPath tr).pgRegistered = pgReg ∧
    (runBodyFromBackup cfg o wolS pgReg pgPath tr).pgDumpPath = pgPath ∧
    (runBodyFromBackup cfg o wolS pgReg pgPath tr).backupPathsUsed =
      some (if pgPath ≠ "" then cfg.backup.paths ++ [pgPath] else cfg.backup.paths) ∧
    (runBodyFromBackup cfg o wolS pgReg pgPath tr).failedStep ≠ "init" := by
  simp only [runBodyFromBackup]
  repeat' split
  all_goals first
  | exact fromForget_proj ..
  | simp

lemma fromForget_check_transportErr (cfg : BackupConfig) (o : Collab)
    (wolS pgReg : Bool) (pgPath : String) (bs : BackupResult) (bp : List String)
    (tr : List Step) (fr : ForgetResult) (e : Err)
    (hf : o.forgetRes = Except.ok fr) (hfe : fr.error = none)
    (hc : cfg.check.enabled = true) (hk : o.checkRes = Except.error e) :
    runBodyFromForget cfg o wolS pgReg pgPath bs bp tr =
      { err := some ("check failed: " ++ e), failedStep := "check",
        wolSucceeded := wolS, backupStats := some bs, forgetStats := some fr,
        pgRegistered := pgReg, pgDumpPath := pgPath, backupPathsUsed := some bp,
        trace := (tr ++ [Step.forget]) ++ [Step.check] } := by
  simp [runBodyFromForget, hf, hfe, hc, hk]

lemma fromForget_check_resultErr (cfg : BackupConfig) (o : Collab)
    (wolS pgReg : Bool) (pgPath : String) (bs : BackupResult) (bp : List String)
    (tr : List Step) (fr : ForgetResult) (cr : CheckResult) (e : Err)
    (hf : o.forgetRes = Except.ok fr) (hfe : fr.error = none)
    (hc : cfg.check.enabled = true) (hk : o.checkRes = Except.ok cr)
    (hke : cr.error = some e) :
    runBodyFromForget cfg o wolS pgReg pgPath bs bp tr =
      { err := some ("check failed: " ++ e), failedStep := "check",
        wolSucceeded := wolS, backupStats := some bs, forgetStats := some fr,
        pgRegistered := pgReg, pgDumpPath := pgPath, backupPathsUsed := some bp,
        trace := (tr ++ [Step.forget]) ++ [Step.check] } := by
  simp [runBodyFromForget, hf, hfe, hc, hk, hke]

lemma runBody_reaches_backup (cfg : BackupConfig) (o : Collab)
    (hwol : wolPhaseOK cfg o = true) (hinit : o.initRes = none)
    (hdump : dumpPhaseOK cfg o = true) :
    ∃ pgReg pgPath tr0,
      runBody cfg o = runBodyFromBackup cfg o (wolOK cfg o) pgReg pgPath tr0 := by
  have h0 := runBody_eq_fromInit cfg o hwol
  rcases hp : cfg.postgres with _ | pc
  · rw [fromInit_eq_fromBackup_nopg cfg o _ _ hinit hp] at h0
    exact ⟨false, "", _, h0⟩
  · simp only [dumpPhaseOK, hp] at hdump
    rcases hd : runPostgresDump o.dumpRes with e | p
    · rw [hd] at hdump
      simp at hdump
    · rw [fromInit_eq_fromBackup_pg cfg o _ _ pc p hinit hp hd] at h0
      exact ⟨true, p, _, h0⟩

lemma runBody_next_after_init (cfg : BackupConfig) (o : Collab)
    (hwol : wolPhaseOK cfg o = true) (hinit : o.initRes = none) :
    Step.postgres ∈ (runBody cfg o).trace ∨ Step.backup ∈ (runBody cfg o).trace := by
  have h0 := runBody_eq_fromInit cfg o hwol
  rcases hp : cfg.postgres with _ | pc
  · rw [fromInit_eq_fromBackup_nopg cfg o _ _ hinit hp] at h0
    right
    rw [h0]
    exact fromBackup_backup_mem ..
  · rcases hd : runPostgresDump o.dumpRes with e | p
    · rw [fromInit_dumpFail cfg o _ _ pc e hinit hp hd] at h0
      left
      rw [h0]
      simp
    · rw [fromInit_eq_fromBackup_pg cfg o _ _ pc p hinit hp hd] at h0
      left
      rw [h0]
      rcases hb : o.backupRes with e2 | br
      · rw [fromBackup_transportErr cfg o _ _ _ _ e2 hb]
        simp
      · rcases hbe : br.error with _ | e2
        · rw [fromBackup_eq_fromForget cfg o _ _ _ _ br hb hbe]
          obtain ⟨s, hs⟩ := fromForget_trace_ext ..
          rw [hs]
          simp
        · rw [fromBackup_resultErr cfg o _ _ _ _ br e2 hb hbe]
          simp

lemma runBody_failedStep_ne_init (cfg : BackupConfig) (o : Collab)
    (hwol : wolPhaseOK cfg o = true) (hinit : o.initRes = none) :
    (runBody cfg o).failedStep ≠ "init" := by
  have h0 := runBody_eq_fromInit cfg o hwol
  rcases hp : cfg.postgres with _ | pc
  · rw [fromInit_eq_fromBackup_nopg cfg o _ _ hinit hp] at h0
    rw [h0]
    exact (fromBackup_proj ..).2.2.2
  · rcases hd : runPostgresDump o.dumpRes with e | p
    · rw [fromInit_dumpFail cfg o _ _ pc e hinit hp hd] at h0
      rw [h0]
      simp
    · rw [fromInit_eq_fromBackup_pg cfg o _ _ pc p hinit hp hd] at h0
      rw [h0]
      exact (fromBackup_proj ..).2.2.2

lemma run_failedStep_cases (cfg : BackupConfig) (o : Collab) (st el : Nat) :
    (run cfg o st el).failedStep = (runBody cfg o).failedStep ∨
      (run cfg o st el).failedStep = "ssh_shutdown" := by
  have h0 : (run cfg o st el).failedStep =
      (match (shutdownPhase cfg o (runBody cfg o).wolSucceeded).err with
       | some _ =>
         match (runBody cfg o).err with
         | none => "ssh_shutdown"
         | some _ => (runBody cfg o).failedStep
       | none => (runBody cfg o).failedStep) := rfl
  rw [h0]
  rcases (shutdownPhase cfg o (runBody cfg o).wolSucceeded).err with _ | e
  · left; rfl
  · rcases (runBody cfg o).err with _ | be
    · right; rfl
    · left; rfl

/-! ## Claim theorems -/

/-- C1: contrary to the spec's step 3, `Run` performs no Repository Unlock
step at all: for every configuration and every collaborator behavior, no
unlock invocation occurs anywhere in the run's trace (the restic service it
drives does not even offer an unlock operation). -/
theorem c1_run_has_no_unlock_step (cfg : BackupConfig) (o : Collab) (st el : Nat) :
    ((run cfg o st el).trace.count Step.unlock) = 0 := by
  rw [List.count_eq_zero]
  intro h
  rcases run_trace_mem cfg o st el _ h with h1 | h1 | h1 | h1
  · rcases runBody_trace_mem cfg o _ h1 with h2 | h2 | h2 | h2 | h2 | h2 <;>
      simp_all
  · simp_all
  · simp_all
  · simp_all

/-- C2: the Remote Shutdown compensating action executes if and only if the
shutdown sub-configuration is present and either wake was never attempted
(no wake sub-configuration) or the wake step succeeded; in particular it
never runs when wake was attempted and failed. -/
theorem c2_shutdown_wake_gate (cfg : BackupConfig) (o : Collab) (st el : Nat) :
    (run cfg o st el).shutdownRan = true ↔
      (cfg.sshShutdown ≠ none ∧ (cfg.wol = none ∨
        ∃ w, cfg.wol = some w ∧ runWOL w o.wakeRes = none)) := by
  rw [run_shutdownRan_eq, runBody_wolSucceeded]
  rcases hs : cfg.sshShutdown with _ | sc
  · rw [shutdownPhase_nocfg cfg o _ hs]
    simp
  · rcases hw : cfg.wol with _ | w
    · rw [shutdownPhase_go cfg o _ sc hs (by simp [hw])]
      simp [hw]
    · rcases hr : runWOL w o.wakeRes with _ | e
      · have hok : wolOK cfg o = true := by simp [wolOK, hw, hr]
        rw [hok, shutdownPhase_go cfg o _ sc hs (by simp)]
        simp [hw, hr]
      · have hok : wolOK cfg o = false := by simp [wolOK, hw, hr]
        rw [hok, shutdownPhase_skip cfg o _ sc hs (by simp [hw])]
        simp [hw, hr]

/-- C4: when the deferred shutdown action fails, its error becomes the run's
terminal error with classification `ssh_shutdown` only if no forward-step
error exists; otherwise the earlier error and its classification are
returned unchanged. -/
theorem c4_shutdown_error_precedence (cfg : BackupConfig) (o : Collab)
    (st el : Nat) (e : Err)
    (hsd : (shutdownPhase cfg o (runBody cfg o).wolSucceeded).err = some e) :
    ((runBody cfg o).err = none →
      (run cfg o st el).error = some e ∧
        (run cfg o st el).failedStep = "ssh_shutdown") ∧
    (∀ be, (runBody cfg o).err = some be →
      (run cfg o st el).error = some be ∧
        (run cfg o st el).failedStep = (runBody cfg o).failedStep) := by
  constructor
  · intro hb
    obtain ⟨h1, _, h3⟩ := run_error_of_body_ok cfg o st el hb
    exact ⟨by rw [h1, hsd], h3 e hsd⟩
  · intro be hb
    exact run_error_of_body_err cfg o st el be hb

/-- Witness for C4: a run whose forward steps succeed but whose shutdown
command transport fails ends with the shutdown failure as terminal error. -/
theorem c4_witness :
    (run { cfg0 with sshShutdown := some scLoaded }
        { okCollab with shutdownRes := Except.error "boom" } 0 0).error =
        some "SSH shutdown failed: boom" ∧
      (run { cfg0 with sshShutdown := some scLoaded }
        { okCollab with shutdownRes := Except.error "boom" } 0 0).failedStep =
        "ssh_shutdown" :=
  (c4_shutdown_error_precedence { cfg0 with sshShutdown := some scLoaded }
    { okCollab with shutdownRes := Except.error "boom" } 0 0
    "SSH shutdown failed: boom" rfl).1 rfl

/-- C5: when the wake sub-configuration is present and the wake step fails,
the run ends with classification `wol` and that error; none of Init, Dump,
Backup, Forget, Check execute, and Shutdown never executes. -/
theorem c5_wake_failure_aborts (cfg : BackupConfig) (o : Collab) (st el : Nat)
    (w : WOLConfig) (e : Err)
    (hw : cfg.wol = some w) (hr : runWOL w o.wakeRes = some e) :
    (run cfg o st el).error = some e ∧
    (run cfg o st el).failedStep = "wol" ∧
    (run cfg o st el).shutdownRan = false ∧
    Step.init ∉ (run cfg o st el).trace ∧
    Step.postgres ∉ (run cfg o st el).trace ∧
    Step.backup ∉ (run cfg o st el).trace ∧
    Step.forget ∉ (run cfg o st el).trace ∧
    Step.check ∉ (run cfg o st el).trace ∧
    Step.shutdown ∉ (run cfg o st el).trace := by
  have hbody : runBody cfg o =
      { err := some e, failedStep := "wol", wolSucceeded := false,
        backupStats := none, forgetStats := none, pgRegistered := false,
        pgDumpPath := "", backupPathsUsed := none, trace := [Step.wol] } := by
    simp [runBody, hw, hr]
  obtain ⟨h1, h2⟩ := run_error_of_body_err cfg o st el e (by rw [hbody])
  have hsdran : (shutdownPhase cfg o false).ran = false := by
    rcases hs : cfg.sshShutdown with _ | sc
    · rw [shutdownPhase_nocfg cfg o _ hs]
    · rw [shutdownPhase_skip cfg o _ sc hs (by simp [hw])]
  have htr : (run cfg o st el).trace =
      Step.wol :: (if cfg.telegram.isSome then [Step.notify] else []) := by
    rw [run_trace_eq, hbody]
    simp [hsdran]
  refine ⟨h1, by rw [h2, hbody], ?_, ?_, ?_, ?_, ?_, ?_, ?_⟩
  · rw [run_shutdownRan_eq, hbody]
    exact hsdran
  all_goals cases htl : cfg.telegram.isSome <;> simp [htr, htl]

/-- Witness for C5: a wake transport failure with shutdown and notification
configured ends the run with the WOL error and no shutdown. -/
theorem c5_witness :
    (run { cfg0 with wol := some wolCfg1, sshShutdown := some scLoaded }
        { okCollab with wakeRes := Except.error "no route" } 0 0).error =
        some "WOL failed: no route" ∧
      (run { cfg0 with wol := some wolCfg1, sshShutdown := some scLoaded }
        { okCollab with wakeRes := Except.error "no route" } 0 0).shutdownRan =
        false := by
  have h := c5_wake_failure_aborts
    { cfg0 with wol := some wolCfg1, sshShutdown := some scLoaded }
    { okCollab with wakeRes := Except.error "no route" } 0 0 wolCfg1
    "WOL failed: no route" rfl rfl
  exact ⟨h.1, h.2.2.1⟩

/-- C10: the run's terminal error and failed-step classification do not
depend on the notification collaborator's response in any way: replacing the
notification response (success, transport error, or result-level error) by
any other leaves both unchanged. -/
theorem c10_notification_failure_only_logged (cfg : BackupConfig) (o : Collab)
    (r r2 : Except Err TelegramResult) (st el : Nat) :
    (run cfg { o with notifyRes := r } st el).error =
      (run cfg { o with notifyRes := r2 } st el).error ∧
    (run cfg { o with notifyRes := r } st el).failedStep =
      (run cfg { o with notifyRes := r2 } st el).failedStep := by
  cases o
  exact ⟨rfl, rfl⟩

/-- C3: with notification configured, the message carries exactly the
statistics captured before the abort: a run failing at Check carries the
full backup and forget statistics with `failedStep = "check"`, and a run
failing at Backup carries empty/zero backup-derived fields with
`failedStep = "backup"`. -/
theorem c3_notification_stats (cfg : BackupConfig) (o : Collab) (st el : Nat)
    (t : TelegramConfig) (ht : cfg.telegram = some t) :
    (∀ br fr, wolPhaseOK cfg o = true → o.initRes = none →
      dumpPhaseOK cfg o = true →
      o.backupRes = Except.ok br → br.error = none →
      o.forgetRes = Except.ok fr → fr.error = none →
      cfg.check.enabled = true → checkFails o = true →
      ∃ m, (run cfg o st el).message = some m ∧ m.failedStep = "check" ∧
        m.snapshotID = br.snapshotID ∧ m.filesNew = br.filesNew ∧
        m.filesChanged = br.filesChanged ∧
        m.filesUnmodified = br.filesUnmodified ∧
        m.dataAdded = br.dataAdded ∧ m.totalFiles = br.totalFilesProcessed ∧
        m.totalBytes = br.totalBytesProcessed ∧
        m.snapshotsKept = fr.snapshotsKept ∧
        m.snapshotsRemoved = fr.snapshotsRemoved) ∧
    (wolPhaseOK cfg o = true → o.initRes = none → dumpPhaseOK cfg o = true →
      backupFails o = true →
      ∃ m, (run cfg o st el).message = some m ∧ m.failedStep = "backup" ∧
        m.snapshotID = "" ∧ m.filesNew = 0 ∧ m.filesChanged = 0 ∧
        m.filesUnmodified = 0 ∧ m.dataAdded = 0 ∧ m.totalFiles = 0 ∧
        m.totalBytes = 0 ∧ m.snapshotsKept = 0 ∧ m.snapshotsRemoved = 0) := by
  constructor
  · intro br fr hwol hinit hdump hb hbe hf hfe hc hck
    obtain ⟨R, P, T, h0⟩ := runBody_reaches_backup cfg o hwol hinit hdump
    rw [fromBackup_eq_fromForget cfg o _ _ _ _ br hb hbe] at h0
    obtain ⟨e, hrec⟩ := fromForget_checkFail cfg o (wolOK cfg o) R P br _ _ fr
      hf hfe hc hck
    rw [hrec] at h0
    have herr : (runBody cfg o).err = some e := by rw [h0]
    obtain ⟨h1, h2⟩ := run_error_of_body_err cfg o st el e herr
    have hfs : (run cfg o st el).failedStep = "check" := by rw [h2, h0]
    have hbs : (runBody cfg o).backupStats = some br := by rw [h0]
    have hfr : (runBody cfg o).forgetStats = some fr := by rw [h0]
    exact ⟨_, by rw [run_message_eq cfg o st el t ht, hfs, h1, hbs, hfr,
      send_fields_err_full], rfl, rfl, rfl, rfl, rfl, rfl, rfl, rfl, rfl, rfl⟩
  · intro hwol hinit hdump hbf
    obtain ⟨R, P, T, h0⟩ := runBody_reaches_backup cfg o hwol hinit hdump
    have hrec : ∃ e, runBody cfg o =
        { err := some ("backup failed: " ++ e), failedStep := "backup",
          wolSucceeded := wolOK cfg o, backupStats := none, forgetStats := none,
          pgRegistered := R, pgDumpPath := P,
          backupPathsUsed := some (if P ≠ "" then cfg.backup.paths ++ [P]
            else cfg.backup.paths),
          trace := T ++ [Step.backup] } := by
      rcases hb : o.backupRes with e | br
      · exact ⟨e, by rw [h0, fromBackup_transportErr cfg o _ _ _ _ e hb]⟩
      · simp only [backupFails, hb] at hbf
        rcases hbe : br.error with _ | e
        · simp [hbe] at hbf
        · exact ⟨e, by rw [h0, fromBackup_resultErr cfg o _ _ _ _ br e hb hbe]⟩
    obtain ⟨e, h0b⟩ := hrec
    have herr : (runBody cfg o).err = some ("backup failed: " ++ e) := by
      rw [h0b]
    obtain ⟨h1, h2⟩ := run_error_of_body_err cfg o st el _ herr
    have hfs : (run cfg o st el).failedStep = "backup" := by rw [h2, h0b]
    have hbs : (runBody cfg o).backupStats = none := by rw [h0b]
    have hfr : (runBody cfg o).forgetStats = none := by rw [h0b]
    exact ⟨_, by rw [run_message_eq cfg o st el t ht, hfs, h1, hbs, hfr,
      send_fields_err_nostats], rfl, rfl, rfl, rfl, rfl, rfl, rfl, rfl, rfl, rfl⟩

/-- Witness for C3: a check failure reports the captured statistics, a
backup failure reports zeroed statistics. -/
theorem c3_witness :
    (∃ m, (run cfgTgCheck oCheckFail 0 0).message = some m ∧
      m.failedStep = "check" ∧ m.snapshotID = "abc123" ∧
      m.snapshotsKept = 5) ∧
    (∃ m, (run cfgTg oBackupFail 0 0).message = some m ∧
      m.failedStep = "backup" ∧ m.snapshotID = "") := by
  constructor
  · obtain ⟨m, hm, hstep, hsid, _, _, _, _, _, _, hkept, _⟩ :=
      (c3_notification_stats cfgTgCheck oCheckFail 0 0 tg1 rfl).1
        brOk frOk rfl rfl rfl rfl rfl rfl rfl rfl rfl
    exact ⟨m, hm, hstep, hsid.trans rfl, hkept.trans rfl⟩
  · obtain ⟨m, hm, hstep, hsid, _⟩ :=
      (c3_notification_stats cfgTg oBackupFail 0 0 tg1 rfl).2 rfl rfl rfl rfl
    exact ⟨m, hm, hstep, hsid⟩

/-- C7: when the database dump is configured and succeeds with a non-empty
file path, the backup is invoked on the configured paths plus the dump path
as one extra entry, and the dump file is removed after the backup step
concludes, whatever the backup's outcome and whether or not shutdown and
notification later run. -/
theorem c7_dump_path_and_cleanup (cfg : BackupConfig) (o : Collab) (st el : Nat)
    (pc : PostgresConfig) (dr : PostgresDumpResult)
    (hp : cfg.postgres = some pc)
    (hd : o.dumpRes = Except.ok dr) (hde : dr.error = none)
    (hne : dr.outputPath ≠ "")
    (hwol : wolPhaseOK cfg o = true) (hinit : o.initRes = none) :
    (run cfg o st el).backupPathsUsed =
      some (cfg.backup.paths ++ [dr.outputPath]) ∧
    (run cfg o st el).dumpFileRemoved = some dr.outputPath ∧
    ∃ pre post, (run cfg o st el).trace = pre ++ Step.removeDumpFile :: post ∧
      Step.backup ∈ pre := by
  have hdOk : runPostgresDump o.dumpRes = Except.ok dr.outputPath := by
    simp [runPostgresDump, hd, hde]
  have h0 := runBody_eq_fromInit cfg o hwol
  rw [fromInit_eq_fromBackup_pg cfg o _ _ pc dr.outputPath hinit hp hdOk] at h0
  obtain ⟨hreg, hpath, hbp, _⟩ := fromBackup_proj cfg o (wolOK cfg o) true
    dr.outputPath (((if cfg.wol.isSome then [Step.wol] else []) ++ [Step.init])
      ++ [Step.postgres])
  have hreg2 : (runBody cfg o).pgRegistered = true := by rw [h0]; exact hreg
  have hpath2 : (runBody cfg o).pgDumpPath = dr.outputPath := by
    rw [h0]; exact hpath
  refine ⟨?_, ?_, ?_⟩
  · rw [run_backupPathsUsed_eq, h0, hbp, if_pos hne]
  · rw [run_dumpFileRemoved_eq, hreg2, hpath2]
    simp
  · refine ⟨(runBody cfg o).trace,
      (if (shutdownPhase cfg o (runBody cfg o).wolSucceeded).ran
        then [Step.shutdown] else []) ++
        (if cfg.telegram.isSome then [Step.notify] else []), ?_, ?_⟩
    · rw [run_trace_eq, hreg2]
      simp
    · rw [h0]
      exact fromBackup_backup_mem ..

/-- Witness for C7: with the dump succeeding at `/tmp/db.dump`, the backup
paths are the configured path plus the dump path and the file is removed. -/
theorem c7_witness :
    (run { cfg0 with postgres := some pgCfg1 } okCollab 0 0).backupPathsUsed =
      some ["/data", "/tmp/db.dump"] ∧
    (run { cfg0 with postgres := some pgCfg1 } okCollab 0 0).dumpFileRemoved =
      some "/tmp/db.dump" := by
  obtain ⟨h1, h2, _⟩ := c7_dump_path_and_cleanup
    { cfg0 with postgres := some pgCfg1 } okCollab 0 0 pgCfg1 pdOk
    rfl rfl rfl (by decide) rfl rfl
  exact ⟨h1.trans rfl, h2.trans rfl⟩

/-- C8: the restic `Init` operation is idempotent success on an
already-initialized repository (its probing `snapshots` command succeeds, so
it returns nil), and a run fed that nil continues past the init step to the
next forward step rather than aborting with an init classification. -/
theorem c8_init_idempotent (cfg : BackupConfig) (o : Collab) (st el : Nat)
    (snapExec initExec : Except Err String) (s : String)
    (hsnap : snapExec = Except.ok s)
    (hinit : o.initRes = resticInit snapExec initExec)
    (hwol : wolPhaseOK cfg o = true) :
    resticInit snapExec initExec = none ∧
    (Step.postgres ∈ (run cfg o st el).trace ∨
      Step.backup ∈ (run cfg o st el).trace) ∧
    (run cfg o st el).failedStep ≠ "init" := by
  have hri : resticInit snapExec initExec = none := by
    rw [hsnap]
    simp [resticInit]
  have hinit2 : o.initRes = none := by rw [hinit, hri]
  refine ⟨hri, ?_, ?_⟩
  · rcases runBody_next_after_init cfg o hwol hinit2 with h | h
    · left
      rw [run_trace_eq]
      simp [h]
    · right
      rw [run_trace_eq]
      simp [h]
  · rcases run_failedStep_cases cfg o st el with h | h
    · rw [h]
      exact runBody_failedStep_ne_init cfg o hwol hinit2
    · rw [h]
      simp

/-- Witness for C8: a successful `snapshots` probe makes `Init` return nil
and the run proceeds to the backup step. -/
theorem c8_witness :
    resticInit (Except.ok "[]") (Except.error "unused") = none ∧
    (Step.postgres ∈ (run cfg0 okCollab 0 0).trace ∨
      Step.backup ∈ (run cfg0 okCollab 0 0).trace) := by
  have h := c8_init_idempotent cfg0 okCollab 0 0 (Except.ok "[]")
    (Except.error "unused") "[]" rfl rfl rfl
  exact ⟨h.1, h.2.1⟩

/-- C9 (amended): `Run` leaves every configuration field unchanged except
the shutdown sub-configuration's private key, which the shutdown action
loads from `KeyPath` (when the key is nil, the path is non-empty and the
file read succeeds) and stores into the configuration through the shared
pointer. -/
theorem c9_config_mutation_scope (cfg : BackupConfig) (o : Collab) (st el : Nat)
    (sc : SSHShutdownConfig) (h : cfg.sshShutdown = some sc) :
    ∃ sc2, (run cfg o st el).finalSSHConfig = some sc2 ∧
      sc2.host = sc.host ∧ sc2.port = sc.port ∧ sc2.username = sc.username ∧
      sc2.keyPath = sc.keyPath ∧ sc2.shutdownDelay = sc.shutdownDelay ∧
      sc2.os = sc.os ∧
      (sc2.privateKey = sc.privateKey ∨
        (sc.privateKey = none ∧ sc.keyPath ≠ "" ∧
          ∃ key, o.readKey = Except.ok key ∧ sc2.privateKey = some key)) := by
  rw [run_finalSSH_eq]
  rcases hg : (!cfg.wol.isSome || (runBody cfg o).wolSucceeded) with _ | _
  · rw [shutdownPhase_skip cfg o _ sc h hg]
    exact ⟨sc, rfl, rfl, rfl, rfl, rfl, rfl, rfl, Or.inl rfl⟩
  · rw [shutdownPhase_go cfg o _ sc h hg]
    rcases rss_cfgAfter sc o.readKey o.shutdownRes with heq | ⟨h1, h2, key, hk, heq⟩
    · exact ⟨sc, by rw [heq], rfl, rfl, rfl, rfl, rfl, rfl, Or.inl rfl⟩
    · exact ⟨{ sc with privateKey := some key }, by rw [heq], rfl, rfl, rfl,
        rfl, rfl, rfl, Or.inr ⟨h1, h2, key, hk, rfl⟩⟩

/-- Witness for C9 (amended): with a pre-loaded key the shutdown
sub-configuration comes out of the run intact. -/
theorem c9_witness :
    ∃ sc2, (run { cfg0 with sshShutdown := some scLoaded } okCollab 0 0).finalSSHConfig =
      some sc2 ∧ sc2.host = "nas" ∧ sc2.privateKey = some [7] := by
  obtain ⟨sc2, heq, hhost, _, _, _, _, _, hpk⟩ := c9_config_mutation_scope
    { cfg0 with sshShutdown := some scLoaded } okCollab 0 0 scLoaded rfl
  refine ⟨sc2, heq, hhost.trans rfl, ?_⟩
  rcases hpk with hpk | ⟨habs, _⟩
  · exact hpk.trans rfl
  · exact absurd habs (by decide)

/-- Counterexample for C9 as stated: when the private key is nil and a key
path is set, the run mutates the shutdown sub-configuration in place,
storing the loaded key bytes into its private-key field. -/
theorem c9_counterexample :
    cfgKeyPath.sshShutdown = some scKeyPath ∧ scKeyPath.privateKey = none ∧
    (run cfgKeyPath okCollab 0 0).finalSSHConfig =
      some { scKeyPath with privateKey := some [1, 2, 3] } ∧
    (run cfgKeyPath okCollab 0 0).finalSSHConfig ≠ cfgKeyPath.sshShutdown := by
  refine ⟨rfl, rfl, rfl, ?_⟩
  decide

/-- Counterexample for C6 as stated: for the Shutdown step a populated
result-level error is NOT treated as failure when the command ran — the run
below ends with no error and an empty classification although the shutdown
result carries an error. -/
theorem c6_counterexample :
    oShutdownResultErr.shutdownRes = Except.ok
      { commandRun := true, output := "conn closed by remote host",
        error := some "exit status 255" } ∧
    (run { cfg0 with sshShutdown := some scLoaded } oShutdownResultErr 0 0).shutdownRan = true ∧
    (run { cfg0 with sshShutdown := some scLoaded } oShutdownResultErr 0 0).error = none ∧
    (run { cfg0 with sshShutdown := some scLoaded } oShutdownResultErr 0 0).failedStep = "" :=
  ⟨rfl, rfl, rfl, rfl⟩

/-- C6 (amended): for the forward steps Wake, Dump, Backup, Forget and
Check, a transport-level error and a populated result-level error are
treated identically — the run aborts with that step's classification and
the same wrapped error text in both shapes.  For Shutdown, a transport
error, and a result-level error whose command did not run, are failures;
but a result-level error whose command did run is tolerated as success. -/
theorem c6_error_shapes (cfg : BackupConfig) (o : Collab) (st el : Nat) :
    (∀ w e, cfg.wol = some w →
      (o.wakeRes = Except.error e ∨
        ∃ r, o.wakeRes = Except.ok r ∧ r.error = some e) →
      (run cfg o st el).error = some ("WOL failed: " ++ e) ∧
        (run cfg o st el).failedStep = "wol" ∧
        Step.init ∉ (run cfg o st el).trace) ∧
    (∀ pc e, wolPhaseOK cfg o = true → o.initRes = none →
      cfg.postgres = some pc →
      (o.dumpRes = Except.error e ∨
        ∃ r, o.dumpRes = Except.ok r ∧ r.error = some e) →
      (run cfg o st el).error = some ("PostgreSQL dump failed: " ++ e) ∧
        (run cfg o st el).failedStep = "postgres" ∧
        Step.backup ∉ (run cfg o st el).trace) ∧
    (∀ e, wolPhaseOK cfg o = true → o.initRes = none →
      dumpPhaseOK cfg o = true →
      (o.backupRes = Except.error e ∨
        ∃ r, o.backupRes = Except.ok r ∧ r.error = some e) →
      (run cfg o st el).error = some ("backup failed: " ++ e) ∧
        (run cfg o st el).failedStep = "backup" ∧
        Step.forget ∉ (run cfg o st el).trace) ∧
    (∀ e, wolPhaseOK cfg o = true → o.initRes = none →
      dumpPhaseOK cfg o = true → backupFails o = false →
      (o.forgetRes = Except.error e ∨
        ∃ r, o.forgetRes = Except.ok r ∧ r.error = some e) →
      (run cfg o st el).error = some ("forget failed: " ++ e) ∧
        (run cfg o st el).failedStep = "forget" ∧
        Step.check ∉ (run cfg o st el).trace) ∧
    (∀ e, wolPhaseOK cfg o = true → o.initRes = none →
      dumpPhaseOK cfg o = true → backupFails o = false →
      forgetFails o = false → cfg.check.enabled = true →
      (o.checkRes = Except.error e ∨
        ∃ r, o.checkRes = Except.ok r ∧ r.error = some e) →
      (run cfg o st el).error = some ("check failed: " ++ e) ∧
        (run cfg o st el).failedStep = "check") ∧
    (∀ sc, cfg.sshShutdown = some sc →
      (∀ e, o.shutdownRes = Except.error e →
        (runSSHShutdown sc o.readKey o.shutdownRes).fst ≠ none) ∧
      (∀ r e, o.shutdownRes = Except.ok r → r.error = some e →
        r.commandRun = false →
        (runSSHShutdown sc o.readKey o.shutdownRes).fst ≠ none) ∧
      (∀ r e, o.shutdownRes = Except.ok r → r.error = some e →
        r.commandRun = true → (sc.privateKey ≠ none ∨ sc.keyPath = "") →
        (runSSHShutdown sc o.readKey o.shutdownRes).fst = none)) := by
  refine ⟨?_, ?_, ?_, ?_, ?_, ?_⟩
  · intro w e hw hshape
    have hr : runWOL w o.wakeRes = some ("WOL failed: " ++ e) := by
      rcases hshape with h | ⟨r, h, he⟩
      · simp [runWOL, h]
      · simp [runWOL, h, he]
    have hbody : runBody cfg o =
        { err := some ("WOL failed: " ++ e), failedStep := "wol",
          wolSucceeded := false, backupStats := none, forgetStats := none,
          pgRegistered := false, pgDumpPath := "", backupPathsUsed := none,
          trace := [Step.wol] } := by
      simp [runBody, hw, hr]
    obtain ⟨h1, h2⟩ := run_error_of_body_err cfg o st el _ (by rw [hbody])
    refine ⟨h1, by rw [h2, hbody], ?_⟩
    intro hx
    rcases run_trace_mem cfg o st el _ hx with hm | hm | hm | hm
    · rw [hbody] at hm
      simp at hm
    · exact absurd hm (by decide)
    · exact absurd hm (by decide)
    · exact absurd hm (by decide)
  · intro pc e hwol hinit hp hshape
    have hd : runPostgresDump o.dumpRes =
        Except.error ("PostgreSQL dump failed: " ++ e) := by
      rcases hshape with h | ⟨r, h, he⟩
      · simp [runPostgresDump, h]
      · simp [runPostgresDump, h, he]
    have h0 := runBody_eq_fromInit cfg o hwol
    rw [fromInit_dumpFail cfg o _ _ pc ("PostgreSQL dump failed: " ++ e)
      hinit hp hd] at h0
    obtain ⟨h1, h2⟩ := run_error_of_body_err cfg o st el _ (by rw [h0])
    refine ⟨h1, by rw [h2, h0], ?_⟩
    intro hx
    rcases run_trace_mem cfg o st el _ hx with hm | hm | hm | hm
    · rw [h0] at hm
      simp only [List.mem_append, List.mem_singleton] at hm
      rcases hm with (hm | hm) | hm
      · rcases mem_ite_list hm with h3 | h3 <;> simp_all
      · simp at hm
      · simp at hm
    · exact absurd hm (by decide)
    · exact absurd hm (by decide)
    · exact absurd hm (by decide)
  · intro e hwol hinit hdump hshape
    obtain ⟨R, P, T, h0⟩ := runBody_reaches_backup cfg o hwol hinit hdump
    have hb : backupFails o = true := by
      rcases hshape with h | ⟨r, h, he⟩
      · simp [backupFails, h]
      · simp [backupFails, h, he]
    have hrec : runBody cfg o =
        { err := some ("backup failed: " ++ e), failedStep := "backup",
          wolSucceeded := wolOK cfg o, backupStats := none, forgetStats := none,
          pgRegistered := R, pgDumpPath := P,
          backupPathsUsed := some (if P ≠ "" then cfg.backup.paths ++ [P]
            else cfg.backup.paths),
          trace := T ++ [Step.backup] } := by
      rcases hshape with h | ⟨r, h, he⟩
      · rw [h0, fromBackup_transportErr cfg o _ _ _ _ e h]
      · rw [h0, fromBackup_resultErr cfg o _ _ _ _ r e h he]
    obtain ⟨h1, h2⟩ := run_error_of_body_err cfg o st el _ (by rw [hrec])
    refine ⟨h1, by rw [h2, hrec], ?_⟩
    intro hx
    rcases run_trace_mem cfg o st el _ hx with hm | hm | hm | hm
    · exact runBody_no_forget cfg o hb hm
    · exact absurd hm (by decide)
    · exact absurd hm (by decide)
    · exact absurd hm (by decide)
  · intro e hwol hinit hdump hbok hshape
    obtain ⟨R, P, T, h0⟩ := runBody_reaches_backup cfg o hwol hinit hdump
    rcases hbr : o.backupRes with e2 | br
    · simp [backupFails, hbr] at hbok
    · have hbe : br.error = none := by
        rcases hbe0 : br.error with _ | x
        · rfl
        · simp [backupFails, hbr, hbe0] at hbok
      rw [fromBackup_eq_fromForget cfg o _ _ _ _ br hbr hbe] at h0
      have hff : forgetFails o = true := by
        rcases hshape with h | ⟨r, h, he⟩
        · simp [forgetFails, h]
        · simp [forgetFails, h, he]
      have hrec : runBody cfg o =
          { err := some ("forget failed: " ++ e), failedStep := "forget",
            wolSucceeded := wolOK cfg o, backupStats := some br,
            forgetStats := none, pgRegistered := R, pgDumpPath := P,
            backupPathsUsed := some (if P ≠ "" then cfg.backup.paths ++ [P]
              else cfg.backup.paths),
            trace := (T ++ [Step.backup]) ++ [Step.forget] } := by
        rcases hshape with h | ⟨r, h, he⟩
        · rw [h0, fromForget_transportErr cfg o _ _ _ br _ _ e h]
        · rw [h0, fromForget_resultErr cfg o _ _ _ br _ _ r e h he]
      obtain ⟨h1, h2⟩ := run_error_of_body_err cfg o st el _ (by rw [hrec])
      refine ⟨h1, by rw [h2, hrec], ?_⟩
      intro hx
      rcases run_trace_mem cfg o st el _ hx with hm | hm | hm | hm
      · exact runBody_no_check cfg o hff hm
      · exact absurd hm (by decide)
      · exact absurd hm (by decide)
      · exact absurd hm (by decide)
  · intro e hwol hinit hdump hbok hfok hc hshape
    obtain ⟨R, P, T, h0⟩ := runBody_reaches_backup cfg o hwol hinit hdump
    rcases hbr : o.backupRes with e2 | br
    · simp [backupFails, hbr] at hbok
    · have hbe : br.error = none := by
        rcases hbe0 : br.error with _ | x
        · rfl
        · simp [backupFails, hbr, hbe0] at hbok
      rw [fromBackup_eq_fromForget cfg o _ _ _ _ br hbr hbe] at h0
      rcases hfr : o.forgetRes with e2 | fr
      · simp [forgetFails, hfr] at hfok
      · have hfe : fr.error = none := by
          rcases hfe0 : fr.error with _ | x
          · rfl
          · simp [forgetFails, hfr, hfe0] at hfok
        have hrec : runBody cfg o =
            { err := some ("check failed: " ++ e), failedStep := "check",
              wolSucceeded := wolOK cfg o, backupStats := some br,
              forgetStats := some fr, pgRegistered := R, pgDumpPath := P,
              backupPathsUsed := some (if P ≠ "" then cfg.backup.paths ++ [P]
                else cfg.backup.paths),
              trace := (((T ++ [Step.backup]) ++ [Step.forget]) ++ [Step.check]) } := by
          rcases hshape with h | ⟨r, h, he⟩
          · rw [h0, fromForget_check_transportErr cfg o _ _ _ br _ _ fr e
              hfr hfe hc h]
          · rw [h0, fromForget_check_resultErr cfg o _ _ _ br _ _ fr r e
              hfr hfe hc h he]
        obtain ⟨h1, h2⟩ := run_error_of_body_err cfg o st el _ (by rw [hrec])
        exact ⟨h1, by rw [h2, hrec]⟩
  · intro sc hsc
    exact ⟨fun e he => rss_transportErr sc o.readKey o.shutdownRes e he,
      fun r e h1 h2 h3 =>
        rss_resultErr_notRun sc o.readKey o.shutdownRes r e h1 h2 h3,
      fun r e h1 h2 h3 h4 =>
        rss_resultErr_run sc o.readKey o.shutdownRes r e h1 h2 h3 h4⟩

/-- Witness for C6 (amended): a backup transport error aborts with the
`backup` classification and the wrapped error. -/
theorem c6_witness :
    (run cfg0 oBackupFail 0 0).error = some "backup failed: disk full" ∧
    (run cfg0 oBackupFail 0 0).failedStep = "backup" := by
  have h := (c6_error_shapes cfg0 oBackupFail 0 0).2.2.1 "disk full"
    rfl rfl rfl (Or.inl rfl)
  exact ⟨h.1, h.2.1⟩

end GoresticHomelab
